import Mathlib

/-!
Shallow embedding of `cardano_tx_sanitizer` (transaction_parser.py, gui.py,
utils.py) and verification of its specification claims.

Collections that may appear in a transaction field are modelled by `Coll`:
Python `None` is `absent`, a plain `list` is `lst`, a pycardano `OrderedSet`
is `oset` (holding its deduplicated element order), a pycardano
`NonEmptyOrderedSet` is `neoset`, and the builtin empty `set()` that the
Conway body builder produces for missing inputs is `emptyPySet`.
Opaque domain values (transaction inputs, outputs, key hashes, witnesses,
scripts, datums, redeemers) are modelled as `Nat`: the code never inspects
them, it only moves them between collection representations.
-/

inductive Coll (α : Type) : Type where
  | absent : Coll α
  | lst (xs : List α) : Coll α
  | oset (xs : List α) : Coll α
  | neoset (xs : List α) : Coll α
  | emptyPySet : Coll α
deriving DecidableEq

namespace Coll

/-- Python truthiness of a field value: `None` and empty collections are
falsy, non-empty collections are truthy. -/
def truthy : Coll α → Bool
  | absent => false
  | lst xs => !xs.isEmpty
  | oset xs => !xs.isEmpty
  | neoset xs => !xs.isEmpty
  | emptyPySet => false

/-- Iterating a Python collection: the element list, in order. -/
def toList : Coll α → List α
  | absent => []
  | lst xs => xs
  | oset xs => xs
  | neoset xs => xs
  | emptyPySet => []

def isLst : Coll α → Bool
  | lst _ => true
  | _ => false

def isOset : Coll α → Bool
  | oset _ => true
  | _ => false

/-- Set representation: pycardano `OrderedSet` or `NonEmptyOrderedSet`. -/
def isSetRepr : Coll α → Bool
  | oset _ => true
  | neoset _ => true
  | _ => false

/-- An empty `NonEmptyOrderedSet` (a schema violation if it ever appears). -/
def emptyNeoset : Coll α → Bool
  | neoset xs => xs.isEmpty
  | _ => false

end Coll

/-- First-occurrence deduplication with an accumulator of already-seen
elements: the order in which `OrderedSet(xs)` keeps elements. -/
def firstDedupAux [DecidableEq α] (seen : List α) : List α → List α
  | [] => []
  | x :: xs =>
      if x ∈ seen then firstDedupAux seen xs
      else x :: firstDedupAux (x :: seen) xs

/-- `OrderedSet(xs)` / `NonEmptyOrderedSet(xs)` construction: deduplicate
keeping the first occurrence of each element. -/
def firstDedup [DecidableEq α] (xs : List α) : List α :=
  firstDedupAux [] xs

/-- `OrderedSet(c) if c else None`. -/
def toOSet [DecidableEq α] (c : Coll α) : Coll α :=
  if c.truthy then Coll.oset (firstDedup c.toList) else Coll.absent

/-- `NonEmptyOrderedSet(c) if c else None`. -/
def toNEOSet [DecidableEq α] (c : Coll α) : Coll α :=
  if c.truthy then Coll.neoset (firstDedup c.toList) else Coll.absent

/-- `list(c) if c else None`. -/
def toLst (c : Coll α) : Coll α :=
  if c.truthy then Coll.lst c.toList else Coll.absent

/-- `class Era(Enum)` in transaction_parser.py. -/
inductive Era : Type where
  | babbage
  | conway
deriving DecidableEq

/-- `class CollectionType(Enum)` in transaction_parser.py. -/
inductive CollectionType : Type where
  | default
  | list
  | set
deriving DecidableEq

/-- `PoolParams` (pycardano): only `pool_owners` is a variable-cardinality
collection; all other fields are opaque pass-through scalars. -/
structure PoolParams : Type where
  operator : Nat
  vrf_keyhash : Nat
  pledge : Nat
  cost : Nat
  margin : Nat
  reward_account : Nat
  pool_owners : Coll Nat
  relays : List Nat
  pool_metadata : Option Nat
deriving DecidableEq

/-- Certificates: `PoolRegistration` (whose `pool_params` may be missing,
matching the `if not cert.pool_params` guard) versus every other certificate
variant, which the code never inspects. -/
inductive Cert : Type where
  | poolReg (pool_params : Option PoolParams) : Cert
  | other (tag : Nat) : Cert
deriving DecidableEq

/-- `TransactionBody` (pycardano): collection fields the exporter re-shapes
are `Coll`; every other field is an opaque pass-through. -/
structure TxBody : Type where
  inputs : Coll Nat
  outputs : List Nat
  fee : Nat
  ttl : Option Nat
  certificates : Coll Cert
  withdraws : Option Nat
  update : Option Nat
  auxiliary_data_hash : Option Nat
  validity_start : Option Nat
  mint : Option Nat
  script_data_hash : Option Nat
  collateral : Coll Nat
  required_signers : Coll Nat
  network_id : Option Nat
  collateral_return : Option Nat
  total_collateral : Option Nat
  reference_inputs : Coll Nat
deriving DecidableEq

/-- `TransactionWitnessSet` (pycardano): the eight collection fields the
builders re-shape. -/
structure WitnessSet : Type where
  vkey_witnesses : Coll Nat
  native_scripts : Coll Nat
  bootstrap_witness : Coll Nat
  plutus_v1_script : Coll Nat
  plutus_v2_script : Coll Nat
  plutus_v3_script : Coll Nat
  plutus_data : Coll Nat
  redeemer : Coll Nat
deriving DecidableEq

/-- `Transaction` (pycardano). -/
structure Transaction : Type where
  transaction_body : TxBody
  transaction_witness_set : WitnessSet
  auxiliary_data : Option Nat
  valid : Bool
deriving DecidableEq

/-- `TransactionExporter._process_pool_registration_cert`, extended over all
certificate variants by `process_certificates`'s isinstance dispatch: a
non-pool-registration certificate is appended as-is. -/
def processCertOne (ct : CollectionType) : Cert → Cert
  | Cert.poolReg none => Cert.poolReg none
  | Cert.poolReg (some p) =>
      if p.pool_owners.truthy then
        let processed_pool_owners :=
          match ct with
          | CollectionType.default | CollectionType.set =>
              Coll.oset (firstDedup p.pool_owners.toList)
          | CollectionType.list => Coll.lst p.pool_owners.toList
        Cert.poolReg (some
          { operator := p.operator
            vrf_keyhash := p.vrf_keyhash
            pledge := p.pledge
            cost := p.cost
            margin := p.margin
            reward_account := p.reward_account
            pool_owners := processed_pool_owners
            relays := p.relays
            pool_metadata := p.pool_metadata })
      else Cert.poolReg (some p)
  | Cert.other t => Cert.other t

/-- `TransactionExporter.process_certificates` (the `era` argument is taken
but never used by the source). -/
def processCertificates (_era : Era) (ct : CollectionType)
    (certificates : List Cert) : List Cert :=
  if certificates.isEmpty then certificates
  else certificates.map (processCertOne ct)

/-- Babbage body, fields 0/13/14/18: `(DEFAULT or SET)` branch uses the
CDDL set types, otherwise plain lists. -/
def babbageInputs (ct : CollectionType) (c : Coll Nat) : Coll Nat :=
  match ct with
  | CollectionType.default | CollectionType.set => toOSet c
  | CollectionType.list => toLst c

def babbageSetField (ct : CollectionType) (c : Coll Nat) : Coll Nat :=
  match ct with
  | CollectionType.default | CollectionType.set => toNEOSet c
  | CollectionType.list => toLst c

/-- Babbage certificates: processed, then `(DEFAULT or LIST)` → list,
`SET` → `NonEmptyOrderedSet`; absent/empty source → `None`. -/
def babbageCertificates (certificates : Coll Cert) (ct : CollectionType) :
    Coll Cert :=
  if certificates.truthy then
    let cs := processCertificates Era.babbage ct certificates.toList
    match ct with
    | CollectionType.default | CollectionType.list => Coll.lst cs
    | CollectionType.set => Coll.neoset (firstDedup cs)
  else Coll.absent

/-- `TransactionExporter._build_babbage_transaction_body`. -/
def buildBabbageTransactionBody (b : TxBody) (ct : CollectionType) : TxBody :=
  { inputs := babbageInputs ct b.inputs
    outputs := b.outputs
    fee := b.fee
    ttl := b.ttl
    certificates := babbageCertificates b.certificates ct
    withdraws := b.withdraws
    update := b.update
    auxiliary_data_hash := b.auxiliary_data_hash
    validity_start := b.validity_start
    mint := b.mint
    script_data_hash := b.script_data_hash
    collateral := babbageSetField ct b.collateral
    required_signers := babbageSetField ct b.required_signers
    network_id := b.network_id
    collateral_return := b.collateral_return
    total_collateral := b.total_collateral
    reference_inputs := babbageSetField ct b.reference_inputs }

/-- Babbage witness fields: `(DEFAULT or LIST)` → list,
`SET` → `NonEmptyOrderedSet`; falsy source → `None`. -/
def babbageWitField (ct : CollectionType) (c : Coll Nat) : Coll Nat :=
  match ct with
  | CollectionType.default | CollectionType.list => toLst c
  | CollectionType.set => toNEOSet c

/-- `TransactionExporter._build_babbage_witness_set`. -/
def buildBabbageWitnessSet (w : WitnessSet) (ct : CollectionType) : WitnessSet :=
  { vkey_witnesses := babbageWitField ct w.vkey_witnesses
    native_scripts := babbageWitField ct w.native_scripts
    bootstrap_witness := babbageWitField ct w.bootstrap_witness
    plutus_v1_script := babbageWitField ct w.plutus_v1_script
    plutus_v2_script := babbageWitField ct w.plutus_v2_script
    plutus_v3_script := babbageWitField ct w.plutus_v3_script
    plutus_data := babbageWitField ct w.plutus_data
    redeemer := babbageWitField ct w.redeemer }

/-- Conway inputs: `OrderedSet(inputs) if inputs else set()` under
`DEFAULT`/`SET`, `list(inputs) if inputs else []` under `LIST`. The falsy
fallbacks are a builtin empty `set()` and an empty list, not `None`. -/
def conwayInputs (ct : CollectionType) (c : Coll Nat) : Coll Nat :=
  match ct with
  | CollectionType.default | CollectionType.set =>
      if c.truthy then Coll.oset (firstDedup c.toList) else Coll.emptyPySet
  | CollectionType.list =>
      if c.truthy then Coll.lst c.toList else Coll.lst []

def conwaySetField (ct : CollectionType) (c : Coll Nat) : Coll Nat :=
  match ct with
  | CollectionType.default | CollectionType.set => toNEOSet c
  | CollectionType.list => toLst c

/-- Conway certificates: processed, then `(DEFAULT or SET)` →
`NonEmptyOrderedSet`, `LIST` → list; absent/empty source → `None`. -/
def conwayCertificates (certificates : Coll Cert) (ct : CollectionType) :
    Coll Cert :=
  if certificates.truthy then
    let cs := processCertificates Era.conway ct certificates.toList
    match ct with
    | CollectionType.default | CollectionType.set => Coll.neoset (firstDedup cs)
    | CollectionType.list => Coll.lst cs
  else Coll.absent

/-- `TransactionExporter._build_conway_transaction_body`. -/
def buildConwayTransactionBody (b : TxBody) (ct : CollectionType) : TxBody :=
  { inputs := conwayInputs ct b.inputs
    outputs := b.outputs
    fee := b.fee
    ttl := b.ttl
    certificates := conwayCertificates b.certificates ct
    withdraws := b.withdraws
    update := b.update
    auxiliary_data_hash := b.auxiliary_data_hash
    validity_start := b.validity_start
    mint := b.mint
    script_data_hash := b.script_data_hash
    collateral := conwaySetField ct b.collateral
    required_signers := conwaySetField ct b.required_signers
    network_id := b.network_id
    collateral_return := b.collateral_return
    total_collateral := b.total_collateral
    reference_inputs := conwaySetField ct b.reference_inputs }

/-- Conway witness fields: `(DEFAULT or SET)` → `NonEmptyOrderedSet`,
`LIST` → list; falsy source → `None`. -/
def conwayWitField (ct : CollectionType) (c : Coll Nat) : Coll Nat :=
  match ct with
  | CollectionType.default | CollectionType.set => toNEOSet c
  | CollectionType.list => toLst c

/-- `TransactionExporter._build_conway_witness_set`. -/
def buildConwayWitnessSet (w : WitnessSet) (ct : CollectionType) : WitnessSet :=
  { vkey_witnesses := conwayWitField ct w.vkey_witnesses
    native_scripts := conwayWitField ct w.native_scripts
    bootstrap_witness := conwayWitField ct w.bootstrap_witness
    plutus_v1_script := conwayWitField ct w.plutus_v1_script
    plutus_v2_script := conwayWitField ct w.plutus_v2_script
    plutus_v3_script := conwayWitField ct w.plutus_v3_script
    plutus_data := conwayWitField ct w.plutus_data
    redeemer := conwayWitField ct w.redeemer }

/-- `TransactionExporter._export_babbage`. -/
def exportBabbage (t : Transaction) (ct : CollectionType) : Transaction :=
  { transaction_body := buildBabbageTransactionBody t.transaction_body ct
    transaction_witness_set := buildBabbageWitnessSet t.transaction_witness_set ct
    auxiliary_data := t.auxiliary_data
    valid := t.valid }

/-- `TransactionExporter._export_conway`. -/
def exportConway (t : Transaction) (ct : CollectionType) : Transaction :=
  { transaction_body := buildConwayTransactionBody t.transaction_body ct
    transaction_witness_set := buildConwayWitnessSet t.transaction_witness_set ct
    auxiliary_data := t.auxiliary_data
    valid := t.valid }

/-- `TransactionExporter.export_to_era`. -/
def exportToEra (t : Transaction) (era : Era) (ct : CollectionType) : Transaction :=
  match era with
  | Era.babbage => exportBabbage t ct
  | Era.conway => exportConway t ct

/-! ### gui.py: the save-to-file path -/

/-- The local `is_empty` helper inside `MainWindow.save_export_to_file`:
all eight witness-set fields are Python-falsy. -/
def witnessSetIsEmpty (w : WitnessSet) : Bool :=
  !w.vkey_witnesses.truthy
    && !w.native_scripts.truthy
    && !w.bootstrap_witness.truthy
    && !w.plutus_v1_script.truthy
    && !w.plutus_data.truthy
    && !w.redeemer.truthy
    && !w.plutus_v2_script.truthy
    && !w.plutus_v3_script.truthy

/-- `era.name.capitalize()` on the `Era` enum constants. -/
def eraDisplayName : Era → String
  | Era.babbage => "Babbage"
  | Era.conway => "Conway"

/-- The JSON object written by `MainWindow.save_export_to_file`: exactly the
three keys `type`, `description`, `cborHex`. -/
structure SavedExportFile : Type where
  type : String
  description : String
  cborHex : String
deriving DecidableEq

/-- The dictionary built by `MainWindow.save_export_to_file`. The CBOR
encoder `to_cbor_hex` is an external codec, passed in abstractly as `enc`;
the source applies it to `self.transaction_data.transaction` — the original
loaded transaction, not any normalized export. -/
def saveExportToFile (enc : Transaction → String) (t : Transaction)
    (era : Era) : SavedExportFile :=
  let tx_status :=
    if witnessSetIsEmpty t.transaction_witness_set then "Unwitnessed"
    else "Signed"
  { type := tx_status ++ " Tx " ++ eraDisplayName era ++ "Era"
    description := "Generated by Cardano Transaction Sanitizer"
    cborHex := enc t }

/-! ### TransactionParser.parse_from_json

File reading (`load_json_file`) and CBOR decoding (`Transaction.from_cbor`)
are external collaborators, passed in abstractly: `loaded` is the outcome of
`load_json_file` followed by the `cborHex` lookup (`Except.error` for a
missing file or invalid JSON; `Except.ok none` when the JSON object has no
`cborHex` key; `Except.ok (some h)` with the field's value), and `dec` is
the CBOR decoder. -/

/-- `TransactionData`: stores the hex string and the parsed transaction. -/
structure TransactionData : Type where
  cbor_hex : String
  transaction : Transaction
deriving DecidableEq

/-- The `TransactionData.__init__` / `_parse_transaction` pair: decode or
raise `ValueError("Invalid CBOR hex or transaction format: ...")`. -/
def mkTransactionData (dec : String → Except String Transaction)
    (cbor_hex : String) : Except String TransactionData :=
  match dec cbor_hex with
  | Except.ok tx => Except.ok { cbor_hex := cbor_hex, transaction := tx }
  | Except.error e =>
      Except.error ("Invalid CBOR hex or transaction format: " ++ e)

/-- `TransactionParser`'s mutable state: `self.transaction_data`. -/
structure ParserState : Type where
  transaction_data : Option TransactionData
deriving DecidableEq

/-- `TransactionParser.parse_from_json`: the whole body runs inside a
`try`/`except` that wraps any failure as
`ValueError("Failed to parse JSON file: ...")`; `self.transaction_data` is
assigned only after `TransactionData(cbor_hex)` succeeds. Returns the
result and the new parser state. -/
def parseFromJson (dec : String → Except String Transaction)
    (loaded : Except String (Option String)) (st : ParserState) :
    Except String TransactionData × ParserState :=
  let attempt : Except String TransactionData :=
    match loaded with
    | Except.error e => Except.error e
    | Except.ok none =>
        Except.error "JSON file must contain \x27cborHex\x27 field"
    | Except.ok (some cbor_hex) => mkTransactionData dec cbor_hex
  match attempt with
  | Except.ok td => (Except.ok td, { transaction_data := some td })
  | Except.error e =>
      (Except.error ("Failed to parse JSON file: " ++ e), st)

/-! ### Basic lemmas about deduplication and collection values -/

theorem mem_firstDedupAux [DecidableEq α] (a : α) (l : List α) :
    ∀ seen : List α, a ∈ firstDedupAux seen l ↔ (a ∈ l ∧ a ∉ seen) := by
  induction l with
  | nil => intro seen; simp [firstDedupAux]
  | cons x xs ih =>
      intro seen
      by_cases hx : x ∈ seen
      · rw [firstDedupAux, if_pos hx, ih seen]
        constructor
        · rintro ⟨h1, h2⟩
          exact ⟨List.mem_cons_of_mem _ h1, h2⟩
        · rintro ⟨h1, h2⟩
          rcases List.mem_cons.mp h1 with rfl | h1
          · exact absurd hx h2
          · exact ⟨h1, h2⟩
      · rw [firstDedupAux, if_neg hx]
        simp only [List.mem_cons, ih (x :: seen)]
        constructor
        · rintro (rfl | ⟨h1, h2⟩)
          · exact ⟨Or.inl rfl, hx⟩
          · exact ⟨Or.inr h1, fun hs => h2 (Or.inr hs)⟩
        · rintro ⟨h1, h2⟩
          by_cases hax : a = x
          · exact Or.inl hax
          · rcases h1 with rfl | h1
            · exact Or.inl rfl
            · exact Or.inr ⟨h1, fun hs => hs.elim hax h2⟩

theorem mem_firstDedup [DecidableEq α] (a : α) (l : List α) :
    a ∈ firstDedup l ↔ a ∈ l := by
  rw [firstDedup, mem_firstDedupAux]; simp

theorem nodup_firstDedupAux [DecidableEq α] (l : List α) :
    ∀ seen : List α, (firstDedupAux seen l).Nodup := by
  induction l with
  | nil => intro seen; simp [firstDedupAux]
  | cons x xs ih =>
      intro seen
      by_cases hx : x ∈ seen
      · rw [firstDedupAux, if_pos hx]; exact ih seen
      · rw [firstDedupAux, if_neg hx]
        refine List.nodup_cons.mpr ⟨fun hmem => ?_, ih (x :: seen)⟩
        exact ((mem_firstDedupAux x xs (x :: seen)).mp hmem).2
          (List.mem_cons_self x seen)

theorem nodup_firstDedup [DecidableEq α] (l : List α) : (firstDedup l).Nodup :=
  nodup_firstDedupAux l []

theorem firstDedupAux_of_nodup [DecidableEq α] (l : List α) :
    ∀ seen : List α, l.Nodup → (∀ a ∈ l, a ∉ seen) →
      firstDedupAux seen l = l := by
  induction l with
  | nil => intro seen _ _; rfl
  | cons x xs ih =>
      intro seen hnd hdis
      have hx : x ∉ seen := hdis x (List.mem_cons_self x xs)
      rw [firstDedupAux, if_neg hx]
      congr 1
      refine ih (x :: seen) (List.nodup_cons.mp hnd).2 ?_
      intro a ha hs
      rcases List.mem_cons.mp hs with rfl | hs2
      · exact (List.nodup_cons.mp hnd).1 ha
      · exact hdis a (List.mem_cons_of_mem _ ha) hs2

theorem firstDedup_of_nodup [DecidableEq α] (l : List α) (h : l.Nodup) :
    firstDedup l = l :=
  firstDedupAux_of_nodup l [] h (by simp)

theorem firstDedup_idem [DecidableEq α] (l : List α) :
    firstDedup (firstDedup l) = firstDedup l :=
  firstDedup_of_nodup _ (nodup_firstDedup l)

theorem firstDedup_ne_nil [DecidableEq α] (l : List α) (h : l ≠ []) :
    firstDedup l ≠ [] := by
  cases l with
  | nil => exact absurd rfl h
  | cons x xs =>
      rw [firstDedup, firstDedupAux, if_neg (List.not_mem_nil x)]
      exact List.cons_ne_nil _ _

theorem Coll.truthy_iff (c : Coll α) : c.truthy = true ↔ c.toList ≠ [] := by
  cases c <;> simp [Coll.truthy, Coll.toList]

theorem toOSet_truthy_eq [DecidableEq α] (c : Coll α) (h : c.truthy = true) :
    toOSet c = Coll.oset (firstDedup c.toList) := by
  rw [toOSet, if_pos h]

theorem toOSet_falsy_eq [DecidableEq α] (c : Coll α) (h : c.truthy = false) :
    toOSet c = Coll.absent := by
  rw [toOSet, if_neg (by simp [h])]

theorem toNEOSet_truthy_eq [DecidableEq α] (c : Coll α) (h : c.truthy = true) :
    toNEOSet c = Coll.neoset (firstDedup c.toList) := by
  rw [toNEOSet, if_pos h]

theorem toNEOSet_falsy_eq [DecidableEq α] (c : Coll α) (h : c.truthy = false) :
    toNEOSet c = Coll.absent := by
  rw [toNEOSet, if_neg (by simp [h])]

theorem toLst_truthy_eq (c : Coll α) (h : c.truthy = true) :
    toLst c = Coll.lst c.toList := by
  rw [toLst, if_pos h]

theorem toLst_falsy_eq (c : Coll α) (h : c.truthy = false) :
    toLst c = Coll.absent := by
  rw [toLst, if_neg (by simp [h])]

theorem oset_firstDedup_truthy [DecidableEq α] (l : List α) (h : l ≠ []) :
    (Coll.oset (firstDedup l)).truthy = true := by
  simp [Coll.truthy, List.isEmpty_iff, firstDedup_ne_nil l h]

theorem neoset_firstDedup_truthy [DecidableEq α] (l : List α) (h : l ≠ []) :
    (Coll.neoset (firstDedup l)).truthy = true := by
  simp [Coll.truthy, List.isEmpty_iff, firstDedup_ne_nil l h]

theorem toOSet_idem [DecidableEq α] (c : Coll α) :
    toOSet (toOSet c) = toOSet c := by
  by_cases h : c.truthy = true
  · have hne : c.toList ≠ [] := (Coll.truthy_iff c).mp h
    rw [toOSet_truthy_eq c h,
      toOSet_truthy_eq _ (oset_firstDedup_truthy _ hne)]
    simp [Coll.toList, firstDedup_idem]
  · rw [toOSet_falsy_eq c (by simpa using h)]
    rfl

theorem toNEOSet_idem [DecidableEq α] (c : Coll α) :
    toNEOSet (toNEOSet c) = toNEOSet c := by
  by_cases h : c.truthy = true
  · have hne : c.toList ≠ [] := (Coll.truthy_iff c).mp h
    rw [toNEOSet_truthy_eq c h,
      toNEOSet_truthy_eq _ (neoset_firstDedup_truthy _ hne)]
    simp [Coll.toList, firstDedup_idem]
  · rw [toNEOSet_falsy_eq c (by simpa using h)]
    rfl

theorem toLst_idem (c : Coll α) : toLst (toLst c) = toLst c := by
  by_cases h : c.truthy = true
  · have hne : c.toList ≠ [] := (Coll.truthy_iff c).mp h
    have ht : (Coll.lst c.toList).truthy = true := by
      simp [Coll.truthy, List.isEmpty_iff, hne]
    rw [toLst_truthy_eq c h, toLst_truthy_eq _ ht]
    simp [Coll.toList]
  · rw [toLst_falsy_eq c (by simpa using h)]
    rfl

/-! ### Certificate processing lemmas -/

theorem processCertOne_truthy_owners (ct : CollectionType) (p : PoolParams)
    (h : p.pool_owners.truthy = true) :
    processCertOne ct (Cert.poolReg (some p)) =
      Cert.poolReg (some
        { operator := p.operator
          vrf_keyhash := p.vrf_keyhash
          pledge := p.pledge
          cost := p.cost
          margin := p.margin
          reward_account := p.reward_account
          pool_owners :=
            match ct with
            | CollectionType.default | CollectionType.set =>
                Coll.oset (firstDedup p.pool_owners.toList)
            | CollectionType.list => Coll.lst p.pool_owners.toList
          relays := p.relays
          pool_metadata := p.pool_metadata }) := by
  simp [processCertOne, h]

theorem processCertOne_falsy_owners (ct : CollectionType) (p : PoolParams)
    (h : p.pool_owners.truthy = false) :
    processCertOne ct (Cert.poolReg (some p)) = Cert.poolReg (some p) := by
  simp [processCertOne, h]

theorem processCertOne_idem (ct : CollectionType) (c : Cert) :
    processCertOne ct (processCertOne ct c) = processCertOne ct c := by
  match c with
  | Cert.other t => rfl
  | Cert.poolReg none => rfl
  | Cert.poolReg (some p) =>
      by_cases h : p.pool_owners.truthy = true
      · have hne : p.pool_owners.toList ≠ [] := (Coll.truthy_iff _).mp h
        rw [processCertOne_truthy_owners ct p h]
        cases ct
        · rw [processCertOne_truthy_owners _ _
            (oset_firstDedup_truthy _ hne)]
          simp [Coll.toList, firstDedup_idem]
        · have ht : (Coll.lst p.pool_owners.toList).truthy = true := by
            simp [Coll.truthy, List.isEmpty_iff, hne]
          rw [processCertOne_truthy_owners _ _ ht]
          simp [Coll.toList]
        · rw [processCertOne_truthy_owners _ _
            (oset_firstDedup_truthy _ hne)]
          simp [Coll.toList, firstDedup_idem]
      · rw [processCertOne_falsy_owners ct p (by simpa using h),
          processCertOne_falsy_owners ct p (by simpa using h)]

theorem map_id_of_mem {α : Type} {f : α → α} (l : List α)
    (h : ∀ a ∈ l, f a = a) : l.map f = l := by
  induction l with
  | nil => rfl
  | cons x xs ih =>
      rw [List.map_cons, h x (List.mem_cons_self x xs),
        ih fun a ha => h a (List.mem_cons_of_mem _ ha)]

theorem processCertificates_eq_map (era : Era) (ct : CollectionType)
    (l : List Cert) (h : l ≠ []) :
    processCertificates era ct l = l.map (processCertOne ct) := by
  rw [processCertificates, if_neg (by simp [List.isEmpty_iff, h])]

theorem processCertificates_ne_nil (era : Era) (ct : CollectionType)
    (l : List Cert) (h : l ≠ []) : processCertificates era ct l ≠ [] := by
  rw [processCertificates_eq_map era ct l h]
  simpa using h

theorem mem_processCertificates (era : Era) (ct : CollectionType)
    (l : List Cert) (c : Cert) (hc : c ∈ l) :
    processCertOne ct c ∈ processCertificates era ct l := by
  rw [processCertificates_eq_map era ct l (List.ne_nil_of_mem hc)]
  exact List.mem_map_of_mem _ hc

theorem mem_processCertificates_inv (era : Era) (ct : CollectionType)
    (l : List Cert) (c' : Cert) (hc' : c' ∈ processCertificates era ct l) :
    ∃ c ∈ l, c' = processCertOne ct c := by
  rw [processCertificates] at hc'
  split at hc'
  · next he =>
      rw [List.isEmpty_iff.mp he] at hc'
      exact absurd hc' (List.not_mem_nil c')
  · obtain ⟨c, hc, rfl⟩ := List.mem_map.mp hc'
    exact ⟨c, hc, rfl⟩

/-! ### No field is ever an empty NonEmptyOrderedSet -/

theorem toOSet_not_emptyNeoset [DecidableEq α] (c : Coll α) :
    (toOSet c).emptyNeoset = false := by
  rw [toOSet]; split <;> rfl

theorem toLst_not_emptyNeoset (c : Coll α) :
    (toLst c).emptyNeoset = false := by
  rw [toLst]; split <;> rfl

theorem toNEOSet_not_emptyNeoset [DecidableEq α] (c : Coll α) :
    (toNEOSet c).emptyNeoset = false := by
  by_cases h : c.truthy = true
  · rw [toNEOSet_truthy_eq c h]
    simp [Coll.emptyNeoset, List.isEmpty_iff,
      firstDedup_ne_nil _ ((Coll.truthy_iff c).mp h)]
  · rw [toNEOSet_falsy_eq c (by simpa using h)]; rfl

theorem babbageInputs_not_emptyNeoset (ct : CollectionType) (c : Coll Nat) :
    (babbageInputs ct c).emptyNeoset = false := by
  cases ct <;>
    simp [babbageInputs, toOSet_not_emptyNeoset, toLst_not_emptyNeoset]

theorem babbageSetField_not_emptyNeoset (ct : CollectionType) (c : Coll Nat) :
    (babbageSetField ct c).emptyNeoset = false := by
  cases ct <;>
    simp [babbageSetField, toNEOSet_not_emptyNeoset, toLst_not_emptyNeoset]

theorem babbageWitField_not_emptyNeoset (ct : CollectionType) (c : Coll Nat) :
    (babbageWitField ct c).emptyNeoset = false := by
  cases ct <;>
    simp [babbageWitField, toNEOSet_not_emptyNeoset, toLst_not_emptyNeoset]

theorem conwayInputs_not_emptyNeoset (ct : CollectionType) (c : Coll Nat) :
    (conwayInputs ct c).emptyNeoset = false := by
  cases ct <;> rw [conwayInputs] <;> split <;> rfl

theorem conwaySetField_not_emptyNeoset (ct : CollectionType) (c : Coll Nat) :
    (conwaySetField ct c).emptyNeoset = false := by
  cases ct <;>
    simp [conwaySetField, toNEOSet_not_emptyNeoset, toLst_not_emptyNeoset]

theorem conwayWitField_not_emptyNeoset (ct : CollectionType) (c : Coll Nat) :
    (conwayWitField ct c).emptyNeoset = false := by
  cases ct <;>
    simp [conwayWitField, toNEOSet_not_emptyNeoset, toLst_not_emptyNeoset]

theorem babbageCertificates_not_emptyNeoset (c : Coll Cert)
    (ct : CollectionType) : (babbageCertificates c ct).emptyNeoset = false := by
  rw [babbageCertificates]
  by_cases h : c.truthy = true
  · rw [if_pos h]
    have hne := processCertificates_ne_nil Era.babbage ct c.toList
      ((Coll.truthy_iff c).mp h)
    cases ct <;>
      simp [Coll.emptyNeoset, List.isEmpty_iff, hne, firstDedup_ne_nil _ hne]
  · rw [if_neg (by simpa using h)]; rfl

theorem conwayCertificates_not_emptyNeoset (c : Coll Cert)
    (ct : CollectionType) : (conwayCertificates c ct).emptyNeoset = false := by
  rw [conwayCertificates]
  by_cases h : c.truthy = true
  · rw [if_pos h]
    have hne := processCertificates_ne_nil Era.conway ct c.toList
      ((Coll.truthy_iff c).mp h)
    cases ct <;>
      simp [Coll.emptyNeoset, List.isEmpty_iff, hne, firstDedup_ne_nil _ hne]
  · rw [if_neg (by simpa using h)]; rfl

/-- Invariant checked by claim C1's second part: no collection field of a
normalized transaction is an empty `NonEmptyOrderedSet`. -/
def NoEmptyNeoset (t : Transaction) : Prop :=
  t.transaction_body.inputs.emptyNeoset = false ∧
  t.transaction_body.certificates.emptyNeoset = false ∧
  t.transaction_body.collateral.emptyNeoset = false ∧
  t.transaction_body.required_signers.emptyNeoset = false ∧
  t.transaction_body.reference_inputs.emptyNeoset = false ∧
  t.transaction_witness_set.vkey_witnesses.emptyNeoset = false ∧
  t.transaction_witness_set.native_scripts.emptyNeoset = false ∧
  t.transaction_witness_set.bootstrap_witness.emptyNeoset = false ∧
  t.transaction_witness_set.plutus_v1_script.emptyNeoset = false ∧
  t.transaction_witness_set.plutus_v2_script.emptyNeoset = false ∧
  t.transaction_witness_set.plutus_v3_script.emptyNeoset = false ∧
  t.transaction_witness_set.plutus_data.emptyNeoset = false ∧
  t.transaction_witness_set.redeemer.emptyNeoset = false

/-! ### Concrete test transactions -/

def emptyWitnessSet : WitnessSet :=
  { vkey_witnesses := Coll.absent
    native_scripts := Coll.absent
    bootstrap_witness := Coll.absent
    plutus_v1_script := Coll.absent
    plutus_v2_script := Coll.absent
    plutus_v3_script := Coll.absent
    plutus_data := Coll.absent
    redeemer := Coll.absent }

def emptyTxBody : TxBody :=
  { inputs := Coll.absent
    outputs := []
    fee := 0
    ttl := none
    certificates := Coll.absent
    withdraws := none
    update := none
    auxiliary_data_hash := none
    validity_start := none
    mint := none
    script_data_hash := none
    collateral := Coll.absent
    required_signers := Coll.absent
    network_id := none
    collateral_return := none
    total_collateral := none
    reference_inputs := Coll.absent }

def emptyTransaction : Transaction :=
  { transaction_body := emptyTxBody
    transaction_witness_set := emptyWitnessSet
    auxiliary_data := none
    valid := true }

theorem babbageSetField_falsy (ct : CollectionType) (c : Coll Nat)
    (h : c.truthy = false) : babbageSetField ct c = Coll.absent := by
  cases ct <;>
    simp [babbageSetField, toNEOSet_falsy_eq c h, toLst_falsy_eq c h]

theorem babbageWitField_falsy (ct : CollectionType) (c : Coll Nat)
    (h : c.truthy = false) : babbageWitField ct c = Coll.absent := by
  cases ct <;>
    simp [babbageWitField, toNEOSet_falsy_eq c h, toLst_falsy_eq c h]

theorem conwaySetField_falsy (ct : CollectionType) (c : Coll Nat)
    (h : c.truthy = false) : conwaySetField ct c = Coll.absent := by
  cases ct <;>
    simp [conwaySetField, toNEOSet_falsy_eq c h, toLst_falsy_eq c h]

theorem conwayWitField_falsy (ct : CollectionType) (c : Coll Nat)
    (h : c.truthy = false) : conwayWitField ct c = Coll.absent := by
  cases ct <;>
    simp [conwayWitField, toNEOSet_falsy_eq c h, toLst_falsy_eq c h]

theorem conwayInputs_falsy (ct : CollectionType) (c : Coll Nat)
    (h : c.truthy = false) :
    conwayInputs ct c =
      (match ct with
        | CollectionType.list => Coll.lst []
        | _ => Coll.emptyPySet) := by
  cases ct <;> rw [conwayInputs] <;> rw [if_neg (by simp [h])]

theorem babbageCertificates_falsy (ct : CollectionType) (c : Coll Cert)
    (h : c.truthy = false) : babbageCertificates c ct = Coll.absent := by
  rw [babbageCertificates, if_neg (by simp [h])]

theorem conwayCertificates_falsy (ct : CollectionType) (c : Coll Cert)
    (h : c.truthy = false) : conwayCertificates c ct = Coll.absent := by
  rw [conwayCertificates, if_neg (by simp [h])]

/-! ### Claim theorems -/

/-- C1: for every transaction whose certificates field is empty or absent
(Python-falsy), normalizing with era = Conway and policy = Default yields a
certificates field that is Absent (`None`), never an empty non-empty
ordered set; more generally, whenever an era/policy combination resolves a
field to non-empty-set representation (collateral, required signers and
reference inputs under Default/Set in either era; certificates and every
witness-set field under Babbage/Set and under Conway Default/Set) and the
source collection is empty, the normalized field is Absent — and no field
of any normalized output is ever an empty `NonEmptyOrderedSet`. -/
theorem claim_c1_conway_default_empty_certs (t : Transaction) (era : Era)
    (ct : CollectionType) :
    (t.transaction_body.certificates.truthy = false →
      (exportToEra t Era.conway
          CollectionType.default).transaction_body.certificates = Coll.absent) ∧
    ((ct = CollectionType.default ∨ ct = CollectionType.set) →
      t.transaction_body.collateral.truthy = false →
      (exportToEra t era ct).transaction_body.collateral = Coll.absent) ∧
    ((ct = CollectionType.default ∨ ct = CollectionType.set) →
      t.transaction_body.required_signers.truthy = false →
      (exportToEra t era ct).transaction_body.required_signers = Coll.absent) ∧
    ((ct = CollectionType.default ∨ ct = CollectionType.set) →
      t.transaction_body.reference_inputs.truthy = false →
      (exportToEra t era ct).transaction_body.reference_inputs = Coll.absent) ∧
    ((era = Era.babbage ∧ ct = CollectionType.set) ∨
        (era = Era.conway ∧
          (ct = CollectionType.default ∨ ct = CollectionType.set)) →
      t.transaction_body.certificates.truthy = false →
      (exportToEra t era ct).transaction_body.certificates = Coll.absent) ∧
    ((era = Era.babbage ∧ ct = CollectionType.set) ∨
        (era = Era.conway ∧
          (ct = CollectionType.default ∨ ct = CollectionType.set)) →
      t.transaction_witness_set.vkey_witnesses.truthy = false →
      (exportToEra t era ct).transaction_witness_set.vkey_witnesses
        = Coll.absent) ∧
    ((era = Era.babbage ∧ ct = CollectionType.set) ∨
        (era = Era.conway ∧
          (ct = CollectionType.default ∨ ct = CollectionType.set)) →
      t.transaction_witness_set.native_scripts.truthy = false →
      (exportToEra t era ct).transaction_witness_set.native_scripts
        = Coll.absent) ∧
    ((era = Era.babbage ∧ ct = CollectionType.set) ∨
        (era = Era.conway ∧
          (ct = CollectionType.default ∨ ct = CollectionType.set)) →
      t.transaction_witness_set.bootstrap_witness.truthy = false →
      (exportToEra t era ct).transaction_witness_set.bootstrap_witness
        = Coll.absent) ∧
    ((era = Era.babbage ∧ ct = CollectionType.set) ∨
        (era = Era.conway ∧
          (ct = CollectionType.default ∨ ct = CollectionType.set)) →
      t.transaction_witness_set.plutus_v1_script.truthy = false →
      (exportToEra t era ct).transaction_witness_set.plutus_v1_script
        = Coll.absent) ∧
    ((era = Era.babbage ∧ ct = CollectionType.set) ∨
        (era = Era.conway ∧
          (ct = CollectionType.default ∨ ct = CollectionType.set)) →
      t.transaction_witness_set.plutus_v2_script.truthy = false →
      (exportToEra t era ct).transaction_witness_set.plutus_v2_script
        = Coll.absent) ∧
    ((era = Era.babbage ∧ ct = CollectionType.set) ∨
        (era = Era.conway ∧
          (ct = CollectionType.default ∨ ct = CollectionType.set)) →
      t.transaction_witness_set.plutus_v3_script.truthy = false →
      (exportToEra t era ct).transaction_witness_set.plutus_v3_script
        = Coll.absent) ∧
    ((era = Era.babbage ∧ ct = CollectionType.set) ∨
        (era = Era.conway ∧
          (ct = CollectionType.default ∨ ct = CollectionType.set)) →
      t.transaction_witness_set.plutus_data.truthy = false →
      (exportToEra t era ct).transaction_witness_set.plutus_data
        = Coll.absent) ∧
    ((era = Era.babbage ∧ ct = CollectionType.set) ∨
        (era = Era.conway ∧
          (ct = CollectionType.default ∨ ct = CollectionType.set)) →
      t.transaction_witness_set.redeemer.truthy = false →
      (exportToEra t era ct).transaction_witness_set.redeemer
        = Coll.absent) ∧
    NoEmptyNeoset (exportToEra t era ct) := by
  refine ⟨fun h => conwayCertificates_falsy CollectionType.default _ h,
    ?_, ?_, ?_, ?_, ?_, ?_, ?_, ?_, ?_, ?_, ?_, ?_, ?_⟩
  case refine_13 =>
    cases era
    · exact ⟨babbageInputs_not_emptyNeoset ct _,
        babbageCertificates_not_emptyNeoset _ ct,
        babbageSetField_not_emptyNeoset ct _,
        babbageSetField_not_emptyNeoset ct _,
        babbageSetField_not_emptyNeoset ct _,
        babbageWitField_not_emptyNeoset ct _,
        babbageWitField_not_emptyNeoset ct _,
        babbageWitField_not_emptyNeoset ct _,
        babbageWitField_not_emptyNeoset ct _,
        babbageWitField_not_emptyNeoset ct _,
        babbageWitField_not_emptyNeoset ct _,
        babbageWitField_not_emptyNeoset ct _,
        babbageWitField_not_emptyNeoset ct _⟩
    · exact ⟨conwayInputs_not_emptyNeoset ct _,
        conwayCertificates_not_emptyNeoset _ ct,
        conwaySetField_not_emptyNeoset ct _,
        conwaySetField_not_emptyNeoset ct _,
        conwaySetField_not_emptyNeoset ct _,
        conwayWitField_not_emptyNeoset ct _,
        conwayWitField_not_emptyNeoset ct _,
        conwayWitField_not_emptyNeoset ct _,
        conwayWitField_not_emptyNeoset ct _,
        conwayWitField_not_emptyNeoset ct _,
        conwayWitField_not_emptyNeoset ct _,
        conwayWitField_not_emptyNeoset ct _,
        conwayWitField_not_emptyNeoset ct _⟩
  case refine_1 | refine_2 | refine_3 =>
    intro _ h
    cases era
    · exact babbageSetField_falsy ct _ h
    · exact conwaySetField_falsy ct _ h
  case refine_4 =>
    intro _ h
    cases era
    · exact babbageCertificates_falsy ct _ h
    · exact conwayCertificates_falsy ct _ h
  case refine_5 | refine_6 | refine_7 | refine_8 | refine_9 | refine_10
      | refine_11 | refine_12 =>
    intro _ h
    cases era
    · exact babbageWitField_falsy ct _ h
    · exact conwayWitField_falsy ct _ h

/-- Witness for C1 at a concrete transaction with absent certificates and
absent witness fields, exercising the Conway/Default scenario and a
non-empty-set resolution (Babbage/Set key witnesses). -/
theorem claim_c1_conway_default_empty_certs_witness :
    emptyTransaction.transaction_body.certificates.truthy = false ∧
    (exportToEra emptyTransaction Era.conway
        CollectionType.default).transaction_body.certificates = Coll.absent ∧
    (exportToEra emptyTransaction Era.babbage
        CollectionType.set).transaction_witness_set.vkey_witnesses
      = Coll.absent :=
  ⟨by decide,
    (claim_c1_conway_default_empty_certs emptyTransaction Era.conway
      CollectionType.default).1 (by decide),
    (claim_c1_conway_default_empty_certs emptyTransaction Era.babbage
      CollectionType.set).2.2.2.2.2.1 (Or.inl ⟨rfl, rfl⟩) (by decide)⟩

/-- C3: for every transaction and every (era, policy) combination, the
normalized body's `outputs` equals the source body's `outputs` exactly —
same elements, same order, same count; outputs never pass through the
collection-policy logic. -/
theorem claim_c3_outputs_preserved (t : Transaction) (era : Era)
    (ct : CollectionType) :
    (exportToEra t era ct).transaction_body.outputs
      = t.transaction_body.outputs := by
  cases era <;> rfl

/-! ### Absence preservation helpers and certificate membership transport -/

theorem babbageInputs_absent (ct : CollectionType) :
    babbageInputs ct Coll.absent = Coll.absent := by cases ct <;> rfl

theorem babbageSetField_absent (ct : CollectionType) :
    babbageSetField ct Coll.absent = Coll.absent := by cases ct <;> rfl

theorem babbageWitField_absent (ct : CollectionType) :
    babbageWitField ct Coll.absent = Coll.absent := by cases ct <;> rfl

theorem conwaySetField_absent (ct : CollectionType) :
    conwaySetField ct Coll.absent = Coll.absent := by cases ct <;> rfl

theorem conwayWitField_absent (ct : CollectionType) :
    conwayWitField ct Coll.absent = Coll.absent := by cases ct <;> rfl

theorem conwayInputs_absent (ct : CollectionType) :
    conwayInputs ct Coll.absent =
      (match ct with
        | CollectionType.list => Coll.lst []
        | _ => Coll.emptyPySet) := by
  cases ct <;> rfl

theorem babbageCertificates_absent (ct : CollectionType) :
    babbageCertificates Coll.absent ct = Coll.absent := rfl

theorem conwayCertificates_absent (ct : CollectionType) :
    conwayCertificates Coll.absent ct = Coll.absent := rfl

theorem mem_exported_certs (t : Transaction) (era : Era) (ct : CollectionType)
    (c : Cert) (hc : c ∈ t.transaction_body.certificates.toList) :
    processCertOne ct c
      ∈ (exportToEra t era ct).transaction_body.certificates.toList := by
  have hne : t.transaction_body.certificates.toList ≠ [] :=
    List.ne_nil_of_mem hc
  have ht : t.transaction_body.certificates.truthy = true :=
    (Coll.truthy_iff _).mpr hne
  cases era
  · show processCertOne ct c
      ∈ (babbageCertificates t.transaction_body.certificates ct).toList
    rw [babbageCertificates, if_pos ht]
    have hmem := mem_processCertificates Era.babbage ct _ c hc
    cases ct
    · simpa [Coll.toList] using hmem
    · simpa [Coll.toList] using hmem
    · simpa [Coll.toList, mem_firstDedup] using hmem
  · show processCertOne ct c
      ∈ (conwayCertificates t.transaction_body.certificates ct).toList
    rw [conwayCertificates, if_pos ht]
    have hmem := mem_processCertificates Era.conway ct _ c hc
    cases ct
    · simpa [Coll.toList, mem_firstDedup] using hmem
    · simpa [Coll.toList] using hmem
    · simpa [Coll.toList, mem_firstDedup] using hmem

theorem mem_exported_certs_inv (t : Transaction) (era : Era)
    (ct : CollectionType) (c' : Cert)
    (hc' : c' ∈ (exportToEra t era ct).transaction_body.certificates.toList) :
    ∃ c ∈ t.transaction_body.certificates.toList,
      c' = processCertOne ct c := by
  cases era
  · have hb : c' ∈ (babbageCertificates t.transaction_body.certificates ct).toList :=
      hc'
    by_cases ht : t.transaction_body.certificates.truthy = true
    · rw [babbageCertificates, if_pos ht] at hb
      cases ct
      · exact mem_processCertificates_inv Era.babbage _ _ _
          (by simpa [Coll.toList] using hb)
      · exact mem_processCertificates_inv Era.babbage _ _ _
          (by simpa [Coll.toList] using hb)
      · exact mem_processCertificates_inv Era.babbage _ _ _
          ((mem_firstDedup c' _).mp (by simpa [Coll.toList] using hb))
    · rw [babbageCertificates, if_neg (by simpa using ht)] at hb
      simp [Coll.toList] at hb
  · have hb : c' ∈ (conwayCertificates t.transaction_body.certificates ct).toList :=
      hc'
    by_cases ht : t.transaction_body.certificates.truthy = true
    · rw [conwayCertificates, if_pos ht] at hb
      cases ct
      · exact mem_processCertificates_inv Era.conway _ _ _
          ((mem_firstDedup c' _).mp (by simpa [Coll.toList] using hb))
      · exact mem_processCertificates_inv Era.conway _ _ _
          (by simpa [Coll.toList] using hb)
      · exact mem_processCertificates_inv Era.conway _ _ _
          ((mem_firstDedup c' _).mp (by simpa [Coll.toList] using hb))
    · rw [conwayCertificates, if_neg (by simpa using ht)] at hb
      simp [Coll.toList] at hb

/-- C2 is refuted on the code: a transaction whose `inputs` field is absent,
normalized with era = Conway and policy = Default, gets an empty builtin
`set()` for `inputs` — an invented empty collection — instead of staying
absent. -/
theorem claim_c2_counterexample :
    emptyTransaction.transaction_body.inputs = Coll.absent ∧
    (exportToEra emptyTransaction Era.conway
        CollectionType.default).transaction_body.inputs ≠ Coll.absent ∧
    (exportToEra emptyTransaction Era.conway
        CollectionType.default).transaction_body.inputs = Coll.emptyPySet := by
  decide

/-- C2 (amended): for every transaction and every (era, policy)
combination, every policy-dependent field that is absent in the source is
absent in the normalized output — with the single exception of the Conway
`inputs` field, which is materialized as an empty builtin `set()` under
Default/Set and as an empty list under List; Babbage `inputs` and every
other field (certificates, collateral, required signers, reference inputs,
all witness-set fields, and the pool-owners field of pool-registration
certificates) stay absent. -/
theorem claim_c2_absence_preserved (t : Transaction) (era : Era)
    (ct : CollectionType) :
    (t.transaction_body.certificates = Coll.absent →
      (exportToEra t era ct).transaction_body.certificates = Coll.absent) ∧
    (t.transaction_body.collateral = Coll.absent →
      (exportToEra t era ct).transaction_body.collateral = Coll.absent) ∧
    (t.transaction_body.required_signers = Coll.absent →
      (exportToEra t era ct).transaction_body.required_signers = Coll.absent) ∧
    (t.transaction_body.reference_inputs = Coll.absent →
      (exportToEra t era ct).transaction_body.reference_inputs = Coll.absent) ∧
    (t.transaction_witness_set.vkey_witnesses = Coll.absent →
      (exportToEra t era ct).transaction_witness_set.vkey_witnesses = Coll.absent) ∧
    (t.transaction_witness_set.native_scripts = Coll.absent →
      (exportToEra t era ct).transaction_witness_set.native_scripts = Coll.absent) ∧
    (t.transaction_witness_set.bootstrap_witness = Coll.absent →
      (exportToEra t era ct).transaction_witness_set.bootstrap_witness = Coll.absent) ∧
    (t.transaction_witness_set.plutus_v1_script = Coll.absent →
      (exportToEra t era ct).transaction_witness_set.plutus_v1_script = Coll.absent) ∧
    (t.transaction_witness_set.plutus_v2_script = Coll.absent →
      (exportToEra t era ct).transaction_witness_set.plutus_v2_script = Coll.absent) ∧
    (t.transaction_witness_set.plutus_v3_script = Coll.absent →
      (exportToEra t era ct).transaction_witness_set.plutus_v3_script = Coll.absent) ∧
    (t.transaction_witness_set.plutus_data = Coll.absent →
      (exportToEra t era ct).transaction_witness_set.plutus_data = Coll.absent) ∧
    (t.transaction_witness_set.redeemer = Coll.absent →
      (exportToEra t era ct).transaction_witness_set.redeemer = Coll.absent) ∧
    (era = Era.babbage → t.transaction_body.inputs = Coll.absent →
      (exportToEra t era ct).transaction_body.inputs = Coll.absent) ∧
    (era = Era.conway → t.transaction_body.inputs = Coll.absent →
      (exportToEra t era ct).transaction_body.inputs =
        (match ct with
          | CollectionType.list => Coll.lst []
          | _ => Coll.emptyPySet)) ∧
    (∀ p : PoolParams,
      Cert.poolReg (some p) ∈ t.transaction_body.certificates.toList →
      p.pool_owners = Coll.absent →
      Cert.poolReg (some p)
        ∈ (exportToEra t era ct).transaction_body.certificates.toList) := by
  cases era
  all_goals refine ⟨fun h => ?_, fun h => ?_, fun h => ?_, fun h => ?_,
    fun h => ?_, fun h => ?_, fun h => ?_, fun h => ?_, fun h => ?_,
    fun h => ?_, fun h => ?_, fun h => ?_, fun he h => ?_, fun he h => ?_,
    fun p hmem howners => ?_⟩
  case babbage.refine_14 => exact absurd he (by simp)
  case conway.refine_13 => exact absurd he (by simp)
  case babbage.refine_13 =>
    show babbageInputs ct t.transaction_body.inputs = Coll.absent
    rw [h]; exact babbageInputs_absent ct
  case conway.refine_14 =>
    show conwayInputs ct t.transaction_body.inputs = _
    rw [h]; exact conwayInputs_absent ct
  case babbage.refine_15 =>
    have hstep : processCertOne ct (Cert.poolReg (some p))
        = Cert.poolReg (some p) :=
      processCertOne_falsy_owners ct p (by rw [howners]; rfl)
    have hm := mem_exported_certs t Era.babbage ct _ hmem
    rwa [hstep] at hm
  case conway.refine_15 =>
    have hstep : processCertOne ct (Cert.poolReg (some p))
        = Cert.poolReg (some p) :=
      processCertOne_falsy_owners ct p (by rw [howners]; rfl)
    have hm := mem_exported_certs t Era.conway ct _ hmem
    rwa [hstep] at hm
  case babbage.refine_1 =>
    show babbageCertificates t.transaction_body.certificates ct = Coll.absent
    rw [h]; exact babbageCertificates_absent ct
  case conway.refine_1 =>
    show conwayCertificates t.transaction_body.certificates ct = Coll.absent
    rw [h]; exact conwayCertificates_absent ct
  case babbage.refine_2 | babbage.refine_3 | babbage.refine_4 =>
    show babbageSetField ct _ = Coll.absent
    rw [h]; exact babbageSetField_absent ct
  case conway.refine_2 | conway.refine_3 | conway.refine_4 =>
    show conwaySetField ct _ = Coll.absent
    rw [h]; exact conwaySetField_absent ct
  case babbage.refine_5 | babbage.refine_6 | babbage.refine_7 | babbage.refine_8 | babbage.refine_9
      | babbage.refine_10 | babbage.refine_11 | babbage.refine_12 =>
    show babbageWitField ct _ = Coll.absent
    rw [h]; exact babbageWitField_absent ct
  case conway.refine_5 | conway.refine_6 | conway.refine_7 | conway.refine_8 | conway.refine_9
      | conway.refine_10 | conway.refine_11 | conway.refine_12 =>
    show conwayWitField ct _ = Coll.absent
    rw [h]; exact conwayWitField_absent ct

/-- Witness for the amended C2 at a concrete transaction. -/
theorem claim_c2_absence_preserved_witness :
    (exportToEra emptyTransaction Era.babbage
        CollectionType.default).transaction_body.certificates = Coll.absent :=
  (claim_c2_absence_preserved emptyTransaction Era.babbage
    CollectionType.default).1 rfl

def poolRegNoParamsTransaction : Transaction :=
  { emptyTransaction with
    transaction_body :=
      { emptyTxBody with certificates := Coll.lst [Cert.poolReg none] } }

/-- Counterexample to C4 as stated: a pool-registration certificate lacking
pool parameters does not make normalization fail with a StructuralError —
the exporter's certificate processing is total and passes the certificate
through unchanged into the normalized output. -/
theorem claim_c4_counterexample :
    (exportToEra poolRegNoParamsTransaction Era.conway
        CollectionType.default).transaction_body.certificates
      = Coll.neoset [Cert.poolReg none] := by decide

/-- C4 (amended): for every era and policy, a certificate claiming to be a
pool-registration but lacking pool parameters never causes a crash and is
never patched: normalization (which is total — no StructuralError exists in
the code) passes the certificate through unchanged into the output
certificate collection. -/
theorem claim_c4_pool_no_params_passthrough (t : Transaction) (era : Era)
    (ct : CollectionType)
    (hmem : Cert.poolReg none ∈ t.transaction_body.certificates.toList) :
    Cert.poolReg none
      ∈ (exportToEra t era ct).transaction_body.certificates.toList :=
  mem_exported_certs t era ct (Cert.poolReg none) hmem

/-- Witness for the amended C4 at a concrete transaction. -/
theorem claim_c4_pool_no_params_passthrough_witness :
    Cert.poolReg none
        ∈ poolRegNoParamsTransaction.transaction_body.certificates.toList ∧
    Cert.poolReg none
      ∈ (exportToEra poolRegNoParamsTransaction Era.babbage
          CollectionType.list).transaction_body.certificates.toList :=
  ⟨by decide,
    claim_c4_pool_no_params_passthrough poolRegNoParamsTransaction
      Era.babbage CollectionType.list (by decide)⟩

def emptyOwnersPoolParams : PoolParams :=
  { operator := 1
    vrf_keyhash := 2
    pledge := 3
    cost := 4
    margin := 5
    reward_account := 6
    pool_owners := Coll.lst []
    relays := [7]
    pool_metadata := none }

def emptyOwnersPoolTransaction : Transaction :=
  { emptyTransaction with
    transaction_body :=
      { emptyTxBody with
        certificates :=
          Coll.lst [Cert.poolReg (some emptyOwnersPoolParams)] } }

/-- Counterexample to C5 as stated: a pool-registration certificate with
pool parameters whose pool-owners collection is an empty list is NOT
rebuilt with an ordered-set owners collection under policy Set — the
certificate comes through unchanged, its owners still a plain (empty)
list. -/
theorem claim_c5_counterexample :
    (exportToEra emptyOwnersPoolTransaction Era.conway
        CollectionType.set).transaction_body.certificates
      = Coll.neoset [Cert.poolReg (some emptyOwnersPoolParams)] ∧
    emptyOwnersPoolParams.pool_owners = Coll.lst [] ∧
    emptyOwnersPoolParams.pool_owners.isOset = false := by decide

/-- C5 (amended): under policy Set (either era), every pool-registration
certificate with pool parameters and a NON-EMPTY pool-owners collection is
rebuilt with its owners deduplicated into an ordered set containing exactly
the source owners, all other pool-parameter fields unchanged; and every
non-pool-registration certificate is copied by structural identity.
(Certificates whose owners collection is empty or absent are returned
unchanged, as the counterexample shows.) -/
theorem claim_c5_pool_owner_set (t : Transaction) (era : Era)
    (p : PoolParams)
    (hmem : Cert.poolReg (some p) ∈ t.transaction_body.certificates.toList)
    (howners : p.pool_owners.truthy = true) :
    (Cert.poolReg (some
        { operator := p.operator
          vrf_keyhash := p.vrf_keyhash
          pledge := p.pledge
          cost := p.cost
          margin := p.margin
          reward_account := p.reward_account
          pool_owners := Coll.oset (firstDedup p.pool_owners.toList)
          relays := p.relays
          pool_metadata := p.pool_metadata })
      ∈ (exportToEra t era
          CollectionType.set).transaction_body.certificates.toList) ∧
    (∀ a, a ∈ firstDedup p.pool_owners.toList ↔ a ∈ p.pool_owners.toList) ∧
    (firstDedup p.pool_owners.toList).Nodup ∧
    (∀ n : Nat, Cert.other n ∈ t.transaction_body.certificates.toList →
      Cert.other n
        ∈ (exportToEra t era
            CollectionType.set).transaction_body.certificates.toList) := by
  refine ⟨?_, fun a => mem_firstDedup a _, nodup_firstDedup _,
    fun n hn => mem_exported_certs t era CollectionType.set (Cert.other n) hn⟩
  have hm := mem_exported_certs t era CollectionType.set _ hmem
  rwa [processCertOne_truthy_owners CollectionType.set p howners] at hm

def dupOwnersPoolParams : PoolParams :=
  { operator := 1
    vrf_keyhash := 2
    pledge := 3
    cost := 4
    margin := 5
    reward_account := 6
    pool_owners := Coll.lst [10, 11, 10, 12]
    relays := [7]
    pool_metadata := none }

def dupOwnersPoolTransaction : Transaction :=
  { emptyTransaction with
    transaction_body :=
      { emptyTxBody with
        certificates :=
          Coll.lst [Cert.poolReg (some dupOwnersPoolParams), Cert.other 9] } }

/-- Witness for the amended C5 at a concrete transaction whose
pool-registration certificate has duplicated owners. -/
theorem claim_c5_pool_owner_set_witness :
    Cert.poolReg (some dupOwnersPoolParams)
        ∈ dupOwnersPoolTransaction.transaction_body.certificates.toList ∧
    dupOwnersPoolParams.pool_owners.truthy = true ∧
    Cert.poolReg (some
        { operator := dupOwnersPoolParams.operator
          vrf_keyhash := dupOwnersPoolParams.vrf_keyhash
          pledge := dupOwnersPoolParams.pledge
          cost := dupOwnersPoolParams.cost
          margin := dupOwnersPoolParams.margin
          reward_account := dupOwnersPoolParams.reward_account
          pool_owners :=
            Coll.oset (firstDedup dupOwnersPoolParams.pool_owners.toList)
          relays := dupOwnersPoolParams.relays
          pool_metadata := dupOwnersPoolParams.pool_metadata })
      ∈ (exportToEra dupOwnersPoolTransaction Era.conway
          CollectionType.set).transaction_body.certificates.toList :=
  ⟨by decide, by decide,
    (claim_c5_pool_owner_set dupOwnersPoolTransaction Era.conway
      dupOwnersPoolParams (by decide) (by decide)).1⟩

/-! ### Requested-representation lemmas for C6 -/

theorem toLst_isLst (c : Coll α) (h : c.truthy = true) :
    (toLst c).isLst = true := by
  rw [toLst_truthy_eq c h]; rfl

theorem toOSet_isSetRepr [DecidableEq α] (c : Coll α) (h : c.truthy = true) :
    (toOSet c).isSetRepr = true := by
  rw [toOSet_truthy_eq c h]; rfl

theorem toNEOSet_isSetRepr [DecidableEq α] (c : Coll α)
    (h : c.truthy = true) : (toNEOSet c).isSetRepr = true := by
  rw [toNEOSet_truthy_eq c h]; rfl

theorem processCertOne_list_owners (c : Cert) (p' : PoolParams)
    (h : processCertOne CollectionType.list c = Cert.poolReg (some p'))
    (ht : p'.pool_owners.truthy = true) : p'.pool_owners.isLst = true := by
  match c with
  | Cert.other t => simp [processCertOne] at h
  | Cert.poolReg none =>
      rw [show processCertOne CollectionType.list (Cert.poolReg none)
          = Cert.poolReg none from rfl] at h
      simp at h
  | Cert.poolReg (some q) =>
      by_cases hq : q.pool_owners.truthy = true
      · rw [processCertOne_truthy_owners _ _ hq] at h
        cases h
        rfl
      · rw [processCertOne_falsy_owners _ _ (by simpa using hq)] at h
        cases h
        exact absurd ht (by simpa using hq)

theorem processCertOne_set_owners (c : Cert) (p' : PoolParams)
    (h : processCertOne CollectionType.set c = Cert.poolReg (some p'))
    (ht : p'.pool_owners.truthy = true) : p'.pool_owners.isOset = true := by
  match c with
  | Cert.other t => simp [processCertOne] at h
  | Cert.poolReg none =>
      rw [show processCertOne CollectionType.set (Cert.poolReg none)
          = Cert.poolReg none from rfl] at h
      simp at h
  | Cert.poolReg (some q) =>
      by_cases hq : q.pool_owners.truthy = true
      · rw [processCertOne_truthy_owners _ _ hq] at h
        cases h
        rfl
      · rw [processCertOne_falsy_owners _ _ (by simpa using hq)] at h
        cases h
        exact absurd ht (by simpa using hq)

theorem babbageCertificates_isLst (c : Coll Cert) (h : c.truthy = true) :
    (babbageCertificates c CollectionType.list).isLst = true := by
  rw [babbageCertificates, if_pos h]; rfl

theorem babbageCertificates_isSetRepr (c : Coll Cert) (h : c.truthy = true) :
    (babbageCertificates c CollectionType.set).isSetRepr = true := by
  rw [babbageCertificates, if_pos h]; rfl

theorem conwayCertificates_isLst (c : Coll Cert) (h : c.truthy = true) :
    (conwayCertificates c CollectionType.list).isLst = true := by
  rw [conwayCertificates, if_pos h]; rfl

theorem conwayCertificates_isSetRepr (c : Coll Cert) (h : c.truthy = true) :
    (conwayCertificates c CollectionType.set).isSetRepr = true := by
  rw [conwayCertificates, if_pos h]; rfl

theorem conwayInputs_list_isLst (c : Coll Nat) (h : c.truthy = true) :
    (conwayInputs CollectionType.list c).isLst = true := by
  rw [conwayInputs, if_pos h]; rfl

theorem conwayInputs_set_isSetRepr (c : Coll Nat) (h : c.truthy = true) :
    (conwayInputs CollectionType.set c).isSetRepr = true := by
  rw [conwayInputs, if_pos h]; rfl

/-- C6: for every era and every non-empty present collection field other
than outputs, requesting policy List materializes the field as a plain
list and requesting policy Set materializes it as a set representation
(`OrderedSet` or `NonEmptyOrderedSet`), uniformly for every eligible body
field, witness-set field, and the pool-owners field, regardless of era. -/
theorem claim_c6_explicit_override (t : Transaction) (era : Era) :
    (t.transaction_body.inputs.truthy = true →
      ((exportToEra t era CollectionType.list).transaction_body.inputs).isLst = true) ∧
    (t.transaction_body.certificates.truthy = true →
      ((exportToEra t era CollectionType.list).transaction_body.certificates).isLst = true) ∧
    (t.transaction_body.collateral.truthy = true →
      ((exportToEra t era CollectionType.list).transaction_body.collateral).isLst = true) ∧
    (t.transaction_body.required_signers.truthy = true →
      ((exportToEra t era CollectionType.list).transaction_body.required_signers).isLst = true) ∧
    (t.transaction_body.reference_inputs.truthy = true →
      ((exportToEra t era CollectionType.list).transaction_body.reference_inputs).isLst = true) ∧
    (t.transaction_witness_set.vkey_witnesses.truthy = true →
      ((exportToEra t era CollectionType.list).transaction_witness_set.vkey_witnesses).isLst = true) ∧
    (t.transaction_witness_set.native_scripts.truthy = true →
      ((exportToEra t era CollectionType.list).transaction_witness_set.native_scripts).isLst = true) ∧
    (t.transaction_witness_set.bootstrap_witness.truthy = true →
      ((exportToEra t era CollectionType.list).transaction_witness_set.bootstrap_witness).isLst = true) ∧
    (t.transaction_witness_set.plutus_v1_script.truthy = true →
      ((exportToEra t era CollectionType.list).transaction_witness_set.plutus_v1_script).isLst = true) ∧
    (t.transaction_witness_set.plutus_v2_script.truthy = true →
      ((exportToEra t era CollectionType.list).transaction_witness_set.plutus_v2_script).isLst = true) ∧
    (t.transaction_witness_set.plutus_v3_script.truthy = true →
      ((exportToEra t era CollectionType.list).transaction_witness_set.plutus_v3_script).isLst = true) ∧
    (t.transaction_witness_set.plutus_data.truthy = true →
      ((exportToEra t era CollectionType.list).transaction_witness_set.plutus_data).isLst = true) ∧
    (t.transaction_witness_set.redeemer.truthy = true →
      ((exportToEra t era CollectionType.list).transaction_witness_set.redeemer).isLst = true) ∧
    (t.transaction_body.inputs.truthy = true →
      ((exportToEra t era CollectionType.set).transaction_body.inputs).isSetRepr = true) ∧
    (t.transaction_body.certificates.truthy = true →
      ((exportToEra t era CollectionType.set).transaction_body.certificates).isSetRepr = true) ∧
    (t.transaction_body.collateral.truthy = true →
      ((exportToEra t era CollectionType.set).transaction_body.collateral).isSetRepr = true) ∧
    (t.transaction_body.required_signers.truthy = true →
      ((exportToEra t era CollectionType.set).transaction_body.required_signers).isSetRepr = true) ∧
    (t.transaction_body.reference_inputs.truthy = true →
      ((exportToEra t era CollectionType.set).transaction_body.reference_inputs).isSetRepr = true) ∧
    (t.transaction_witness_set.vkey_witnesses.truthy = true →
      ((exportToEra t era CollectionType.set).transaction_witness_set.vkey_witnesses).isSetRepr = true) ∧
    (t.transaction_witness_set.native_scripts.truthy = true →
      ((exportToEra t era CollectionType.set).transaction_witness_set.native_scripts).isSetRepr = true) ∧
    (t.transaction_witness_set.bootstrap_witness.truthy = true →
      ((exportToEra t era CollectionType.set).transaction_witness_set.bootstrap_witness).isSetRepr = true) ∧
    (t.transaction_witness_set.plutus_v1_script.truthy = true →
      ((exportToEra t era CollectionType.set).transaction_witness_set.plutus_v1_script).isSetRepr = true) ∧
    (t.transaction_witness_set.plutus_v2_script.truthy = true →
      ((exportToEra t era CollectionType.set).transaction_witness_set.plutus_v2_script).isSetRepr = true) ∧
    (t.transaction_witness_set.plutus_v3_script.truthy = true →
      ((exportToEra t era CollectionType.set).transaction_witness_set.plutus_v3_script).isSetRepr = true) ∧
    (t.transaction_witness_set.plutus_data.truthy = true →
      ((exportToEra t era CollectionType.set).transaction_witness_set.plutus_data).isSetRepr = true) ∧
    (t.transaction_witness_set.redeemer.truthy = true →
      ((exportToEra t era CollectionType.set).transaction_witness_set.redeemer).isSetRepr = true) ∧
    (∀ p : PoolParams,
      Cert.poolReg (some p)
          ∈ (exportToEra t era CollectionType.list).transaction_body.certificates.toList →
      p.pool_owners.truthy = true → p.pool_owners.isLst = true) ∧
    (∀ p : PoolParams,
      Cert.poolReg (some p)
          ∈ (exportToEra t era CollectionType.set).transaction_body.certificates.toList →
      p.pool_owners.truthy = true → p.pool_owners.isOset = true) := by
  cases era <;>
    refine ⟨fun h => ?_, fun h => ?_, fun h => ?_, fun h => ?_, fun h => ?_,
      fun h => ?_, fun h => ?_, fun h => ?_, fun h => ?_, fun h => ?_,
      fun h => ?_, fun h => ?_, fun h => ?_,
      fun h => ?_, fun h => ?_, fun h => ?_, fun h => ?_, fun h => ?_,
      fun h => ?_, fun h => ?_, fun h => ?_, fun h => ?_, fun h => ?_,
      fun h => ?_, fun h => ?_, fun h => ?_,
      fun p hm ht => ?_, fun p hm ht => ?_⟩ <;>
    first
      | exact toLst_isLst _ h
      | exact toOSet_isSetRepr _ h
      | exact toNEOSet_isSetRepr _ h
      | exact babbageCertificates_isLst _ h
      | exact babbageCertificates_isSetRepr _ h
      | exact conwayCertificates_isLst _ h
      | exact conwayCertificates_isSetRepr _ h
      | exact conwayInputs_list_isLst _ h
      | exact conwayInputs_set_isSetRepr _ h
      | (obtain ⟨c, hc, heq⟩ := mem_exported_certs_inv _ _ _ _ hm
         first
           | exact processCertOne_list_owners c p heq.symm ht
           | exact processCertOne_set_owners c p heq.symm ht)

/-- Witness for C6: a concrete transaction with non-empty certificates,
normalized with policy List and policy Set. -/
theorem claim_c6_explicit_override_witness :
    dupOwnersPoolTransaction.transaction_body.certificates.truthy = true ∧
    ((exportToEra dupOwnersPoolTransaction Era.babbage
        CollectionType.list).transaction_body.certificates).isLst = true :=
  ⟨by decide,
    (claim_c6_explicit_override dupOwnersPoolTransaction
      Era.babbage).2.1 (by decide)⟩

/-! ### Idempotence of Default-policy normalization (C7) -/

theorem map_processCertOne_idem (ct : CollectionType) (l : List Cert) :
    (l.map (processCertOne ct)).map (processCertOne ct)
      = l.map (processCertOne ct) := by
  induction l with
  | nil => rfl
  | cons x xs ih => simp only [List.map_cons, processCertOne_idem, ih]

theorem babbageCertificates_default_eq (c : Coll Cert)
    (h : c.truthy = true) :
    babbageCertificates c CollectionType.default
      = Coll.lst (c.toList.map (processCertOne CollectionType.default)) := by
  rw [babbageCertificates, if_pos h,
    processCertificates_eq_map _ _ _ ((Coll.truthy_iff c).mp h)]

theorem conwayCertificates_default_eq (c : Coll Cert)
    (h : c.truthy = true) :
    conwayCertificates c CollectionType.default
      = Coll.neoset
          (firstDedup (c.toList.map (processCertOne CollectionType.default))) := by
  rw [conwayCertificates, if_pos h,
    processCertificates_eq_map _ _ _ ((Coll.truthy_iff c).mp h)]

theorem babbageCertificates_default_idem (c : Coll Cert) :
    babbageCertificates (babbageCertificates c CollectionType.default)
      CollectionType.default = babbageCertificates c CollectionType.default := by
  by_cases h : c.truthy = true
  · have hne := (Coll.truthy_iff c).mp h
    have hmne : c.toList.map (processCertOne CollectionType.default) ≠ [] := by
      simpa using hne
    have ht2 : (Coll.lst
        (c.toList.map (processCertOne CollectionType.default))).truthy = true := by
      simp [Coll.truthy, List.isEmpty_iff, hmne]
    rw [babbageCertificates_default_eq c h, babbageCertificates_default_eq _ ht2]
    show Coll.lst ((c.toList.map (processCertOne CollectionType.default)).map
      (processCertOne CollectionType.default)) = _
    rw [map_processCertOne_idem]
  · have h0 : babbageCertificates c CollectionType.default = Coll.absent := by
      rw [babbageCertificates, if_neg (by simpa using h)]
    rw [h0]
    rfl

theorem conwayCertificates_default_idem (c : Coll Cert) :
    conwayCertificates (conwayCertificates c CollectionType.default)
      CollectionType.default = conwayCertificates c CollectionType.default := by
  by_cases h : c.truthy = true
  · have hne := (Coll.truthy_iff c).mp h
    have hmne : c.toList.map (processCertOne CollectionType.default) ≠ [] := by
      simpa using hne
    have hdne : firstDedup
        (c.toList.map (processCertOne CollectionType.default)) ≠ [] :=
      firstDedup_ne_nil _ hmne
    have ht2 : (Coll.neoset (firstDedup
        (c.toList.map (processCertOne CollectionType.default)))).truthy = true := by
      simp [Coll.truthy, List.isEmpty_iff, hdne]
    rw [conwayCertificates_default_eq c h, conwayCertificates_default_eq _ ht2]
    show Coll.neoset (firstDedup
        ((firstDedup (c.toList.map (processCertOne CollectionType.default))).map
          (processCertOne CollectionType.default))) = _
    have hid : (firstDedup (c.toList.map
        (processCertOne CollectionType.default))).map
          (processCertOne CollectionType.default)
        = firstDedup (c.toList.map (processCertOne CollectionType.default)) := by
      apply map_id_of_mem
      intro a ha
      obtain ⟨b, hb, rfl⟩ := List.mem_map.mp ((mem_firstDedup a _).mp ha)
      exact processCertOne_idem _ b
    rw [hid, firstDedup_of_nodup _ (nodup_firstDedup _)]
  · have h0 : conwayCertificates c CollectionType.default = Coll.absent := by
      rw [conwayCertificates, if_neg (by simpa using h)]
    rw [h0]
    rfl

theorem conwayInputs_default_idem (c : Coll Nat) :
    conwayInputs CollectionType.default (conwayInputs CollectionType.default c)
      = conwayInputs CollectionType.default c := by
  by_cases h : c.truthy = true
  · have hne := (Coll.truthy_iff c).mp h
    have h1 : conwayInputs CollectionType.default c
        = Coll.oset (firstDedup c.toList) := by
      rw [conwayInputs, if_pos h]
    rw [h1, conwayInputs, if_pos (oset_firstDedup_truthy _ hne)]
    show Coll.oset (firstDedup (firstDedup c.toList)) = _
    rw [firstDedup_idem]
  · have h1 : conwayInputs CollectionType.default c = Coll.emptyPySet := by
      rw [conwayInputs, if_neg (by simpa using h)]
    rw [h1]
    rfl

theorem buildBabbageBody_default_idem (b : TxBody) :
    buildBabbageTransactionBody
        (buildBabbageTransactionBody b CollectionType.default)
        CollectionType.default
      = buildBabbageTransactionBody b CollectionType.default := by
  simp only [buildBabbageTransactionBody, babbageInputs, babbageSetField]
  simp [toOSet_idem, toNEOSet_idem, babbageCertificates_default_idem]

theorem buildBabbageWitness_default_idem (w : WitnessSet) :
    buildBabbageWitnessSet
        (buildBabbageWitnessSet w CollectionType.default) CollectionType.default
      = buildBabbageWitnessSet w CollectionType.default := by
  simp only [buildBabbageWitnessSet, babbageWitField]
  simp [toLst_idem]

theorem buildConwayBody_default_idem (b : TxBody) :
    buildConwayTransactionBody
        (buildConwayTransactionBody b CollectionType.default)
        CollectionType.default
      = buildConwayTransactionBody b CollectionType.default := by
  simp only [buildConwayTransactionBody, conwaySetField]
  simp [toNEOSet_idem, conwayCertificates_default_idem, conwayInputs_default_idem]

theorem buildConwayWitness_default_idem (w : WitnessSet) :
    buildConwayWitnessSet
        (buildConwayWitnessSet w CollectionType.default) CollectionType.default
      = buildConwayWitnessSet w CollectionType.default := by
  simp only [buildConwayWitnessSet, conwayWitField]
  simp [toNEOSet_idem]

/-- C7: Default-policy normalization is idempotent — for every transaction
and every era, normalizing with policy Default and then normalizing the
result again with the same (era, Default) yields a transaction structurally
equal to the first normalization. -/
theorem claim_c7_default_idempotent (t : Transaction) (era : Era) :
    exportToEra (exportToEra t era CollectionType.default) era
        CollectionType.default
      = exportToEra t era CollectionType.default := by
  cases era
  · show exportBabbage (exportBabbage t CollectionType.default)
        CollectionType.default = exportBabbage t CollectionType.default
    simp only [exportBabbage]
    simp [buildBabbageBody_default_idem, buildBabbageWitness_default_idem]
  · show exportConway (exportConway t CollectionType.default)
        CollectionType.default = exportConway t CollectionType.default
    simp only [exportConway]
    simp [buildConwayBody_default_idem, buildConwayWitness_default_idem]

/-! ### C8: the save-to-file path -/

/-- Any of the eight witness-set fields is Python-truthy (present and
non-empty). -/
def anyWitnessFieldTruthy (w : WitnessSet) : Bool :=
  w.vkey_witnesses.truthy || w.native_scripts.truthy
    || w.bootstrap_witness.truthy || w.plutus_v1_script.truthy
    || w.plutus_data.truthy || w.redeemer.truthy
    || w.plutus_v2_script.truthy || w.plutus_v3_script.truthy

theorem witnessSetIsEmpty_eq (w : WitnessSet) :
    witnessSetIsEmpty w = !anyWitnessFieldTruthy w := by
  simp [witnessSetIsEmpty, anyWitnessFieldTruthy]

def presentEmptyWitnessTransaction : Transaction :=
  { emptyTransaction with
    transaction_witness_set :=
      { emptyWitnessSet with vkey_witnesses := Coll.lst [] } }

/-- Counterexample to C8 as stated: a loaded transaction whose
`vkey_witnesses` field is present (an empty list, not `None`) is still
labelled "Unwitnessed", because the save path tests Python truthiness, not
presence. -/
theorem claim_c8_counterexample :
    presentEmptyWitnessTransaction.transaction_witness_set.vkey_witnesses
        ≠ Coll.absent ∧
    (saveExportToFile (fun _ => "") presentEmptyWitnessTransaction
        Era.conway).type = "Unwitnessed Tx ConwayEra" := by
  exact ⟨by decide, rfl⟩

/-- C8 (amended): the save-to-file path produces a JSON object with exactly
three fields: `type`, which is "Signed Tx <Era>Era" when any witness-set
field of the loaded transaction is present AND non-empty (Python-truthy)
and "Unwitnessed Tx <Era>Era" otherwise (a present-but-empty field counts
as unwitnessed); `description`, a fixed constant string; and `cborHex`, the
encoding of the original, non-normalized transaction's own CBOR bytes
rather than the normalized export. -/
theorem claim_c8_save_file (enc : Transaction → String) (t : Transaction)
    (era : Era) :
    (saveExportToFile enc t era).cborHex = enc t ∧
    (saveExportToFile enc t era).description
        = "Generated by Cardano Transaction Sanitizer" ∧
    (anyWitnessFieldTruthy t.transaction_witness_set = true →
      (saveExportToFile enc t era).type
        = "Signed Tx " ++ eraDisplayName era ++ "Era") ∧
    (anyWitnessFieldTruthy t.transaction_witness_set = false →
      (saveExportToFile enc t era).type
        = "Unwitnessed Tx " ++ eraDisplayName era ++ "Era") := by
  refine ⟨rfl, rfl, fun h => ?_, fun h => ?_⟩
  · show (if witnessSetIsEmpty t.transaction_witness_set then "Unwitnessed"
      else "Signed") ++ " Tx " ++ eraDisplayName era ++ "Era" = _
    rw [witnessSetIsEmpty_eq, h]
    rfl
  · show (if witnessSetIsEmpty t.transaction_witness_set then "Unwitnessed"
      else "Signed") ++ " Tx " ++ eraDisplayName era ++ "Era" = _
    rw [witnessSetIsEmpty_eq, h]
    rfl

def signedTransaction : Transaction :=
  { emptyTransaction with
    transaction_witness_set :=
      { emptyWitnessSet with vkey_witnesses := Coll.lst [42] } }

/-- Witness for the amended C8 at a concrete transaction with one key
witness. -/
theorem claim_c8_save_file_witness :
    anyWitnessFieldTruthy signedTransaction.transaction_witness_set = true ∧
    (saveExportToFile (fun _ => "abc") signedTransaction Era.babbage).type
      = "Signed Tx " ++ eraDisplayName Era.babbage ++ "Era" :=
  ⟨by decide,
    (claim_c8_save_file (fun _ => "abc") signedTransaction
      Era.babbage).2.2.1 (by decide)⟩

/-! ### C9: empty-to-absent mapping -/

/-- Counterexample to C9 as stated: a pool-registration certificate with a
present-but-empty pool-owners list keeps its empty list — pool owners are
NOT mapped to absent when empty; the certificate is returned unchanged. -/
theorem claim_c9_counterexample :
    emptyOwnersPoolParams.pool_owners = Coll.lst [] ∧
    (exportToEra emptyOwnersPoolTransaction Era.conway
        CollectionType.default).transaction_body.certificates
      = Coll.neoset [Cert.poolReg (some emptyOwnersPoolParams)] := by
  decide

/-- C9 (amended): for every era and policy, normalization maps a
Python-falsy (present-but-empty or absent) source collection to an absent
(`None`) field in the output for certificates, collateral, required
signers, reference inputs, and all witness-set fields; a pool-registration
certificate whose pool-owners collection is empty or absent is returned
unchanged (its owners are NOT mapped to absent); and the Conway `inputs`
field becomes an empty collection — an empty builtin `set()` under
Default/Set, an empty list under List — when the source inputs are empty
or absent. -/
theorem claim_c9_empty_to_absent (t : Transaction) (era : Era)
    (ct : CollectionType) :
    (t.transaction_body.certificates.truthy = false →
      (exportToEra t era ct).transaction_body.certificates = Coll.absent) ∧
    (t.transaction_body.collateral.truthy = false →
      (exportToEra t era ct).transaction_body.collateral = Coll.absent) ∧
    (t.transaction_body.required_signers.truthy = false →
      (exportToEra t era ct).transaction_body.required_signers = Coll.absent) ∧
    (t.transaction_body.reference_inputs.truthy = false →
      (exportToEra t era ct).transaction_body.reference_inputs = Coll.absent) ∧
    (t.transaction_witness_set.vkey_witnesses.truthy = false →
      (exportToEra t era ct).transaction_witness_set.vkey_witnesses = Coll.absent) ∧
    (t.transaction_witness_set.native_scripts.truthy = false →
      (exportToEra t era ct).transaction_witness_set.native_scripts = Coll.absent) ∧
    (t.transaction_witness_set.bootstrap_witness.truthy = false →
      (exportToEra t era ct).transaction_witness_set.bootstrap_witness = Coll.absent) ∧
    (t.transaction_witness_set.plutus_v1_script.truthy = false →
      (exportToEra t era ct).transaction_witness_set.plutus_v1_script = Coll.absent) ∧
    (t.transaction_witness_set.plutus_v2_script.truthy = false →
      (exportToEra t era ct).transaction_witness_set.plutus_v2_script = Coll.absent) ∧
    (t.transaction_witness_set.plutus_v3_script.truthy = false →
      (exportToEra t era ct).transaction_witness_set.plutus_v3_script = Coll.absent) ∧
    (t.transaction_witness_set.plutus_data.truthy = false →
      (exportToEra t era ct).transaction_witness_set.plutus_data = Coll.absent) ∧
    (t.transaction_witness_set.redeemer.truthy = false →
      (exportToEra t era ct).transaction_witness_set.redeemer = Coll.absent) ∧
    (era = Era.conway → t.transaction_body.inputs.truthy = false →
      (exportToEra t era ct).transaction_body.inputs =
        (match ct with
          | CollectionType.list => Coll.lst []
          | _ => Coll.emptyPySet)) ∧
    (∀ p : PoolParams,
      Cert.poolReg (some p) ∈ t.transaction_body.certificates.toList →
      p.pool_owners.truthy = false →
      Cert.poolReg (some p)
        ∈ (exportToEra t era ct).transaction_body.certificates.toList) := by
  cases era
  all_goals refine ⟨fun h => ?_, fun h => ?_, fun h => ?_, fun h => ?_,
    fun h => ?_, fun h => ?_, fun h => ?_, fun h => ?_, fun h => ?_,
    fun h => ?_, fun h => ?_, fun h => ?_, fun he h => ?_,
    fun p hmem howners => ?_⟩
  case babbage.refine_13 => exact absurd he (by simp)
  case conway.refine_13 =>
    show conwayInputs ct t.transaction_body.inputs = _
    exact conwayInputs_falsy ct _ h
  case babbage.refine_14 =>
    have hstep : processCertOne ct (Cert.poolReg (some p))
        = Cert.poolReg (some p) :=
      processCertOne_falsy_owners ct p howners
    have hm := mem_exported_certs t Era.babbage ct _ hmem
    rwa [hstep] at hm
  case conway.refine_14 =>
    have hstep : processCertOne ct (Cert.poolReg (some p))
        = Cert.poolReg (some p) :=
      processCertOne_falsy_owners ct p howners
    have hm := mem_exported_certs t Era.conway ct _ hmem
    rwa [hstep] at hm
  case babbage.refine_1 =>
    exact babbageCertificates_falsy ct _ h
  case conway.refine_1 =>
    exact conwayCertificates_falsy ct _ h
  case babbage.refine_2 | babbage.refine_3 | babbage.refine_4 =>
    exact babbageSetField_falsy ct _ h
  case conway.refine_2 | conway.refine_3 | conway.refine_4 =>
    exact conwaySetField_falsy ct _ h
  case babbage.refine_5 | babbage.refine_6 | babbage.refine_7
      | babbage.refine_8 | babbage.refine_9 | babbage.refine_10
      | babbage.refine_11 | babbage.refine_12 =>
    exact babbageWitField_falsy ct _ h
  case conway.refine_5 | conway.refine_6 | conway.refine_7
      | conway.refine_8 | conway.refine_9 | conway.refine_10
      | conway.refine_11 | conway.refine_12 =>
    exact conwayWitField_falsy ct _ h

def presentEmptyCertsTransaction : Transaction :=
  { emptyTransaction with
    transaction_body := { emptyTxBody with certificates := Coll.lst [] } }

/-- Witness for the amended C9 at a concrete transaction with a
present-but-empty certificate list. -/
theorem claim_c9_empty_to_absent_witness :
    presentEmptyCertsTransaction.transaction_body.certificates.truthy
        = false ∧
    (exportToEra presentEmptyCertsTransaction Era.conway
        CollectionType.set).transaction_body.certificates = Coll.absent :=
  ⟨by decide,
    (claim_c9_empty_to_absent presentEmptyCertsTransaction Era.conway
      CollectionType.set).1 (by decide)⟩

/-! ### C10: parse_from_json -/

/-- `TransactionParser.__init__`: `self.transaction_data = None`. -/
def initialParserState : ParserState := { transaction_data := none }

/-- C10: for every input, `parse_from_json` either succeeds and replaces
the parser's stored transaction data with the parsed result, or fails with
a ValueError whose message begins with "Failed to parse JSON file: "
(covering file-not-found, invalid JSON, missing cborHex field, and CBOR
decode failure alike) and leaves the previously stored transaction data
unchanged — no partially parsed transaction is ever stored on failure. -/
theorem claim_c10_parse_from_json (dec : String → Except String Transaction)
    (loaded : Except String (Option String)) (st : ParserState) :
    (∀ td st2, parseFromJson dec loaded st = (Except.ok td, st2) →
        st2.transaction_data = some td) ∧
    (∀ e st2, parseFromJson dec loaded st = (Except.error e, st2) →
        st2 = st ∧ ∃ rest, e = "Failed to parse JSON file: " ++ rest) := by
  rcases loaded with e0 | mh
  · refine ⟨fun td st2 hok => ?_, fun e' st2 herr => ?_⟩
    · simp [parseFromJson] at hok
    · simp only [parseFromJson, Prod.mk.injEq, Except.error.injEq] at herr
      exact ⟨herr.2.symm, e0, herr.1.symm⟩
  · rcases mh with _ | h
    · refine ⟨fun td st2 hok => ?_, fun e' st2 herr => ?_⟩
      · simp [parseFromJson] at hok
      · simp only [parseFromJson, Prod.mk.injEq, Except.error.injEq] at herr
        exact ⟨herr.2.symm,
          "JSON file must contain \x27cborHex\x27 field", herr.1.symm⟩
    · rcases hdec : dec h with e1 | tx
      · refine ⟨fun td st2 hok => ?_, fun e' st2 herr => ?_⟩
        · simp [parseFromJson, mkTransactionData, hdec] at hok
        · simp only [parseFromJson, mkTransactionData, hdec,
            Prod.mk.injEq, Except.error.injEq] at herr
          exact ⟨herr.2.symm,
            "Invalid CBOR hex or transaction format: " ++ e1, herr.1.symm⟩
      · refine ⟨fun td st2 hok => ?_, fun e' st2 herr => ?_⟩
        · simp only [parseFromJson, mkTransactionData, hdec,
            Prod.mk.injEq, Except.ok.injEq] at hok
          rw [← hok.2, ← hok.1]
        · simp [parseFromJson, mkTransactionData, hdec] at herr

/-- Witness for C10: a concrete failing decode leaves the parser state
unchanged and the error carries the required prefix. -/
theorem claim_c10_parse_from_json_witness :
    initialParserState = initialParserState ∧
    ∃ rest,
      "Failed to parse JSON file: Invalid CBOR hex or transaction format: bad"
        = "Failed to parse JSON file: " ++ rest :=
  (claim_c10_parse_from_json (fun _ => Except.error "bad")
      (Except.ok (some "ff")) initialParserState).2
    "Failed to parse JSON file: Invalid CBOR hex or transaction format: bad"
    initialParserState (by rfl)
